import Mathlib

/-!
# Verification of the collection-dashboard pagination / filter / export core

Shallow embedding of `src/app/routes/app.collections.$id/route.jsx` (active,
uncommented implementation) and the product-detail loader in
`src/unnamed/part_000`. JavaScript optional values are `Option`, and the
JavaScript truthiness idioms `x || d` and `x ? a : b` on strings are embedded
explicitly (the empty string is falsy).
-/

namespace Dashboard

/-- JS `o || d` on an optional string: `null`/`undefined` and `""` are falsy. -/
def jsOr (o : Option String) (d : String) : String :=
  match o with
  | some s => if s = "" then d else s
  | none => d

/-- JS `o || null` on an optional string (used for `featuredImage?.url || null`). -/
def jsOrNull (o : Option String) : Option String :=
  match o with
  | some s => if s = "" then none else some s
  | none => none

/-- JS truthiness of a nullable string (`cursor ? … : …`). -/
def jsTruthy (o : Option String) : Bool :=
  match o with
  | some s => !(s == "")
  | none => false

/-- Characters of `needle` appear at the head of `hay` (JS `startsWith` on char lists). -/
def charsStartWith : List Char → List Char → Bool
  | _, [] => true
  | [], _ :: _ => false
  | a :: as, b :: bs => a == b && charsStartWith as bs

/-- Whether `needle` occurs contiguously inside `hay` (JS `String.includes` on char lists). -/
def charsContain : List Char → List Char → Bool
  | [], needle => needle.isEmpty
  | hay@(_ :: t), needle => charsStartWith hay needle || charsContain t needle

/-- JS `s.includes(sub)`. -/
def jsIncludes (s sub : String) : Bool :=
  charsContain s.data sub.data

/-- JS `s.trim()`: whitespace stripped from both ends. -/
def jsTrim (s : String) : String :=
  ⟨((s.data.dropWhile Char.isWhitespace).reverse.dropWhile Char.isWhitespace).reverse⟩

/-- The `minVariantPrice` of `priceRangeV2`: amount is the GraphQL decimal string. -/
structure Price where
  amount : String
  currencyCode : String
deriving DecidableEq, Repr

/-- The `inventoryItem.measurement.weight` of the representative variant.
JS numbers carry truthiness: `value = 0` is falsy, which the embedding
tracks by using `Int` and testing against `0`. -/
structure WeightData where
  value : Int
  unit : Option String
deriving DecidableEq, Repr

/-- The single representative variant node (`variants(first: 1)` edge). -/
structure VariantNode where
  id : String
  barcode : Option String
  weight : Option WeightData
deriving DecidableEq, Repr

/-- The `featuredImage` of a raw product node. -/
structure RawImage where
  url : Option String
  altText : Option String
deriving DecidableEq, Repr

/-- A raw product node as returned by the upstream GraphQL query. -/
structure RawNode where
  id : String
  title : Option String
  featuredImage : Option RawImage
  price : Price
  totalInventory : Option Nat
  variants : List VariantNode
deriving DecidableEq, Repr

/-- The normalized flat record the loader builds from each edge. -/
structure ProductRecord where
  id : String
  title : String
  image : Option String
  imageAlt : Option String
  weight : String
  price : Price
  barcode : String
  availableUnits : Nat
  cursor : String
deriving DecidableEq, Repr

/-- The weight chain `variants.edges[0]?.node?.inventoryItem?.measurement?.weight`. -/
def rawWeightOf (node : RawNode) : Option WeightData :=
  (node.variants.head?).bind VariantNode.weight

/-- The loader's per-edge normalizer (route.jsx lines 449–470): builds a
`ProductRecord` with `"N/A"` defaults, the derived weight display string, and
`totalInventory || 0` for the available units. -/
def normalize (node : RawNode) (cursor : String) : ProductRecord :=
  let variant := node.variants.head?
  let weightData := variant.bind VariantNode.weight
  let weightDisplay :=
    match weightData with
    | some w =>
        if w.value ≠ 0 then
          toString w.value ++ " " ++ ((w.unit.map String.toLower).getD "")
        else "N/A"
    | none => "N/A"
  { id := node.id
    title := jsOr node.title "N/A"
    image := jsOrNull (node.featuredImage.bind RawImage.url)
    imageAlt :=
      match node.featuredImage.bind RawImage.altText with
      | some a => if a = "" then node.title else some a
      | none => node.title
    weight := weightDisplay
    price := node.price
    barcode := jsOr (variant.bind VariantNode.barcode) "N/A"
    availableUnits := node.totalInventory.getD 0
    cursor := cursor }

/-- The loader's stock predicate (route.jsx lines 473–479): the in-stock branch
is taken exactly when the filter string is `"in-stock"`; every other filter
string selects the sold-out branch. -/
def stockPredicate (stockFilter : String) (p : ProductRecord) : Bool :=
  if stockFilter == "in-stock" then decide (p.availableUnits > 0)
  else p.availableUnits == 0

/-- The loader's stock selection as a function of the raw `stock` query
parameter (route.jsx line 372 `url.searchParams.get("stock") || "in-stock"`
composed with the filter of lines 473–479). -/
def loaderStockSelect (stockParam : Option String) (products : List ProductRecord) :
    List ProductRecord :=
  products.filter (stockPredicate (jsOr stockParam "in-stock"))

/-- The record-matching predicate of the client-side search (route.jsx
`filteredProducts` useMemo): case-insensitive substring test of the lowercased
query against title, barcode and weight display, ORed. `q` is already the
lowercased query. -/
def matchesQuery (q : String) (p : ProductRecord) : Bool :=
  jsIncludes p.title.toLower q || jsIncludes p.barcode.toLower q ||
    jsIncludes p.weight.toLower q

/-- The client-side search filter (route.jsx lines 514–527): a blank (empty
after trim) query returns the record list unchanged; otherwise the records are
filtered by `matchesQuery` with the lowercased query. -/
def searchFilter (records : List ProductRecord) (searchQuery : String) :
    List ProductRecord :=
  if jsTrim searchQuery = "" then records
  else records.filter (matchesQuery searchQuery.toLower)

/-- Replace every `"` by `""` (the exporter's `title.replace(/"/g, '""')`). -/
def escapeDQ : List Char → List Char
  | [] => []
  | c :: rest => if c = '"' then '"' :: '"' :: escapeDQ rest else c :: escapeDQ rest

/-- String form of `escapeDQ`. -/
def jsEscapeQuotes (s : String) : String :=
  ⟨escapeDQ s.data⟩

/-- The six fields of one exported CSV row (route.jsx `exportCurrentPage`):
the title is quoted with internal quotes doubled; weight and barcode are
wrapped in quotes as-is; price amount, currency and available units are raw. -/
def csvRowFields (p : ProductRecord) : List String :=
  ["\"" ++ jsEscapeQuotes p.title ++ "\"",
   "\"" ++ p.weight ++ "\"",
   p.price.amount,
   p.price.currencyCode,
   "\"" ++ p.barcode ++ "\"",
   toString p.availableUnits]

/-- One CSV row: the fields joined with `","` (JS `row.join(",")`). -/
def csvRowOf (p : ProductRecord) : String :=
  String.intercalate "," (csvRowFields p)

/-- The fixed header row of the export. -/
def csvHeader : String :=
  String.intercalate ","
    ["Product Name", "Weight", "Price", "Currency", "Barcode", "Available Units"]

/-- The UTF-8 byte-order-marker prefix of the export. -/
def bom : String := "\uFEFF"

/-- The full CSV document: BOM, then header and rows joined with CRLF. -/
def csvContent (ps : List ProductRecord) : String :=
  bom ++ String.intercalate "\r\n" (csvHeader :: ps.map csvRowOf)

/-- The export file name (route.jsx line 592):
`` `${collection?.title || "Products"}_${tabName}_Page_${date}.csv` `` with
`tabName` equal to `"InStock"` for tab 0 and `"SoldOut"` otherwise. -/
def exportFileName (collectionTitle : Option String) (selectedTab : Nat)
    (dateStr : String) : String :=
  jsOr collectionTitle "Products" ++ "_" ++
    (if selectedTab == 0 then "InStock" else "SoldOut") ++ "_Page_" ++
    dateStr ++ ".csv"

/-- Outcome of the export handler: either a user-facing notice (the `alert`
branch) or a named file download. The handler always returns one of these;
it has no exception path. -/
inductive ExportResult where
  | notice (msg : String)
  | file (name : String) (content : String)
deriving DecidableEq, Repr

/-- The export handler (route.jsx `exportCurrentPage`, lines 560–601): with no
products it alerts `"No products to export"` and produces no file; otherwise
it produces the CSV download with the derived file name. -/
def exportCurrentPage (products : List ProductRecord) (collectionTitle : Option String)
    (selectedTab : Nat) (dateStr : String) : ExportResult :=
  if products.isEmpty then .notice "No products to export"
  else .file (exportFileName collectionTitle selectedTab dateStr) (csvContent products)

/-- The page size constant `PRODUCTS_PER_PAGE`. -/
def productsPerPage : Nat := 30

/-- The loader's products-query construction (route.jsx lines 374–384):
the GraphQL connection arguments chosen from `direction` and the raw
`cursor` query parameter, with JS truthiness on the cursor. -/
def productsQuery (direction : String) (cursor : Option String) : String :=
  if direction == "next" then
    if jsTruthy cursor then
      "products(first: " ++ toString productsPerPage ++ ", after: \"" ++
        cursor.getD "" ++ "\")"
    else "products(first: " ++ toString productsPerPage ++ ")"
  else
    if jsTruthy cursor then
      "products(last: " ++ toString productsPerPage ++ ", before: \"" ++
        cursor.getD "" ++ "\")"
    else "products(last: " ++ toString productsPerPage ++ ")"

/-- Modelled from the spec: the four fetch-request shapes of §4.3 — first
`n` items, items strictly after a cursor, last `n` items, items strictly
before a cursor. -/
inductive FetchRequest where
  | firstPage (n : Nat)
  | afterCursor (n : Nat) (c : String)
  | lastPage (n : Nat)
  | beforeCursor (n : Nat) (c : String)
deriving DecidableEq, Repr

/-- The GraphQL connection-argument string denoting each fetch-request shape
(`first`/`after` request items from the start or strictly after the cursor;
`last`/`before` request items from the end or strictly before the cursor). -/
def renderFetchRequest : FetchRequest → String
  | .firstPage n => "products(first: " ++ toString n ++ ")"
  | .afterCursor n c => "products(first: " ++ toString n ++ ", after: \"" ++ c ++ "\")"
  | .lastPage n => "products(last: " ++ toString n ++ ")"
  | .beforeCursor n c => "products(last: " ++ toString n ++ ", before: \"" ++ c ++ "\")"

/-- Modelled from the spec: the request §4.3 prescribes for each direction and
cursor — absent cursor means first (forward) or last (backward) page; a present
cursor means strictly after (forward) or strictly before (backward) it. -/
def specFetchRequest (direction : String) (cursor : Option String) : FetchRequest :=
  match cursor with
  | none => if direction == "next" then .firstPage productsPerPage
            else .lastPage productsPerPage
  | some c => if direction == "next" then .afterCursor productsPerPage c
              else .beforeCursor productsPerPage c

/-- The `pageInfo` of the products connection. -/
structure PageInfo where
  hasNextPage : Bool
  hasPreviousPage : Bool
  startCursor : Option String
  endCursor : Option String
deriving DecidableEq, Repr

/-- One edge of the products connection: a cursor plus the raw node. -/
structure Edge where
  cursor : String
  node : RawNode
deriving DecidableEq, Repr

/-- The collection payload of a successful upstream response. -/
structure CollectionNode where
  id : String
  title : String
  productsCount : Nat
  edges : List Edge
  pageInfo : PageInfo
deriving DecidableEq, Repr

/-- An upstream GraphQL response for the collection query; `collection = none`
embeds `data.data?.collection` being `null`/missing. -/
structure UpstreamResponse where
  collection : Option CollectionNode
deriving DecidableEq, Repr

/-- A thrown `Response(message, { status })`. -/
structure ErrResponse where
  status : Nat
  message : String
deriving DecidableEq, Repr

/-- The data the loader returns on success. -/
structure LoaderOutput where
  id : String
  title : String
  productsCount : Nat
  products : List ProductRecord
  pageInfo : PageInfo
  allProductsFromPage : List ProductRecord
  stockFilter : String
deriving DecidableEq, Repr

/-- The collection loader's response processing (route.jsx lines 443–491):
a missing collection throws the 404 `"Collection not found"` response;
otherwise the edges are normalized and stock-filtered. -/
def loaderProcess (resp : UpstreamResponse) (stockParam : Option String) :
    Except ErrResponse LoaderOutput :=
  let stockFilter := jsOr stockParam "in-stock"
  match resp.collection with
  | none => .error ⟨404, "Collection not found"⟩
  | some col =>
      let products := col.edges.map (fun e => normalize e.node e.cursor)
      .ok { id := col.id
            title := col.title
            productsCount := col.productsCount
            products := products.filter (stockPredicate stockFilter)
            pageInfo := col.pageInfo
            allProductsFromPage := products
            stockFilter := stockFilter }

/-- The loader as run against the upstream: it issues exactly one fetch
(index 0 of the fetch sequence) and processes that single response. -/
def loaderRun (fetchSeq : Nat → UpstreamResponse) (stockParam : Option String) :
    Except ErrResponse LoaderOutput :=
  loaderProcess (fetchSeq 0) stockParam

/-- An upstream response for the product-detail query (`src/unnamed/part_000`):
`errors` embeds a present `data.errors` payload, `product` the nullable
`data.data?.product`. -/
structure ProductResponse where
  errors : Bool
  product : Option String
deriving DecidableEq, Repr

/-- The product-detail loader's response processing (part_000 lines 85–105):
an error payload throws 500, a missing product throws the 404
`"Product not found"` response (the surrounding catch rethrows `Response`
errors unchanged), otherwise the product is returned. -/
def productLoaderProcess (resp : ProductResponse) : Except ErrResponse String :=
  if resp.errors then .error ⟨500, "Failed to fetch product"⟩
  else match resp.product with
       | none => .error ⟨404, "Product not found"⟩
       | some p => .ok p

/-- The product-detail loader as run against the upstream: one fetch,
one processed response. -/
def productLoaderRun (fetchSeq : Nat → ProductResponse) : Except ErrResponse String :=
  productLoaderProcess (fetchSeq 0)

/-! ## Sample records used by witnesses -/

/-- A concrete in-stock record. -/
def sampleInStock : ProductRecord :=
  { id := "gid://shopify/Product/1", title := "Gold Ring", image := none,
    imageAlt := none, weight := "5 g", price := ⟨"120.0", "INR"⟩,
    barcode := "8901", availableUnits := 5, cursor := "curA" }

/-- A concrete sold-out record. -/
def sampleSoldOut : ProductRecord :=
  { id := "gid://shopify/Product/2", title := "Silver Chain", image := none,
    imageAlt := none, weight := "12 g", price := ⟨"80.0", "INR"⟩,
    barcode := "8902", availableUnits := 0, cursor := "curB" }

/-! ## Claims -/

/-- C2: the stock filtering is a true partition — every record set is the
disjoint union of the `"in-stock"` selection (`availableUnits > 0`) and the
`"sold-out"` selection (`availableUnits === 0`). -/
theorem stock_partition_correct (R : List ProductRecord) (r : ProductRecord) :
    (r ∈ R ↔
      r ∈ R.filter (stockPredicate "in-stock") ∨
        r ∈ R.filter (stockPredicate "sold-out"))
    ∧ ¬(r ∈ R.filter (stockPredicate "in-stock") ∧
        r ∈ R.filter (stockPredicate "sold-out")) := by
  have hin : ∀ p : ProductRecord,
      stockPredicate "in-stock" p = decide (p.availableUnits > 0) := fun p => rfl
  have hout : ∀ p : ProductRecord,
      stockPredicate "sold-out" p = (p.availableUnits == 0) := fun p => rfl
  simp only [List.mem_filter, hin, hout, decide_eq_true_eq, beq_iff_eq]
  constructor
  · constructor
    · intro h
      rcases Nat.eq_zero_or_pos r.availableUnits with h0 | hp
      · exact Or.inr ⟨h, h0⟩
      · exact Or.inl ⟨h, hp⟩
    · rintro (⟨h, _⟩ | ⟨h, _⟩) <;> exact h
  · rintro ⟨⟨_, hp⟩, ⟨_, h0⟩⟩
    omega

/-- Witness for C2 at a concrete two-record set. -/
theorem stock_partition_correct_witness :
    (sampleInStock ∈ [sampleInStock, sampleSoldOut] ↔
      sampleInStock ∈ [sampleInStock, sampleSoldOut].filter (stockPredicate "in-stock") ∨
        sampleInStock ∈ [sampleInStock, sampleSoldOut].filter (stockPredicate "sold-out"))
    ∧ ¬(sampleInStock ∈ [sampleInStock, sampleSoldOut].filter (stockPredicate "in-stock") ∧
        sampleInStock ∈ [sampleInStock, sampleSoldOut].filter (stockPredicate "sold-out")) :=
  stock_partition_correct [sampleInStock, sampleSoldOut] sampleInStock

/-- C5: the search filter with a query that is empty after trimming (empty or
whitespace-only) returns the record list unchanged in order and content. -/
theorem search_filter_blank_identity (R : List ProductRecord) (q : String)
    (h : jsTrim q = "") : searchFilter R q = R := by
  simp [searchFilter, h]

/-- Witness for C5: a whitespace-only query on a concrete list. -/
theorem search_filter_blank_identity_witness :
    jsTrim "  " = "" ∧ searchFilter [sampleInStock, sampleSoldOut] "  " =
      [sampleInStock, sampleSoldOut] :=
  ⟨by decide, search_filter_blank_identity [sampleInStock, sampleSoldOut] "  " (by decide)⟩

/-- C6: the search filter is idempotent — filtering its own output with the
same query changes nothing. -/
theorem search_filter_idempotent (R : List ProductRecord) (q : String) :
    searchFilter (searchFilter R q) q = searchFilter R q := by
  by_cases h : jsTrim q = ""
  · simp [searchFilter, h]
  · simp only [searchFilter, if_neg h]
    rw [List.filter_filter]
    simp

/-- C7: the export handler invoked with zero records produces the
`"No products to export"` notice and never a file; it returns normally
(the result type has no exception). -/
theorem export_empty_notice (collectionTitle : Option String) (selectedTab : Nat)
    (dateStr : String) :
    exportCurrentPage [] collectionTitle selectedTab dateStr =
      ExportResult.notice "No products to export"
    ∧ ∀ name content,
        exportCurrentPage [] collectionTitle selectedTab dateStr ≠
          ExportResult.file name content := by
  refine ⟨rfl, ?_⟩
  intro name content h
  simp [exportCurrentPage] at h

/-- Witness for C7 at concrete arguments. -/
theorem export_empty_notice_witness :
    exportCurrentPage [] (some "Rings") 0 "2026-10-12" =
      ExportResult.notice "No products to export"
    ∧ exportCurrentPage [] (some "Rings") 0 "2026-10-12" ≠
        ExportResult.file "x" "y" :=
  ⟨(export_empty_notice (some "Rings") 0 "2026-10-12").1,
   (export_empty_notice (some "Rings") 0 "2026-10-12").2 "x" "y"⟩

/-- A raw node whose variant has weight value `0` (a present value that is
JS-falsy). -/
def zeroWeightNode : RawNode :=
  { id := "gid://shopify/Product/3", title := some "Pendant",
    featuredImage := none, price := ⟨"50.0", "INR"⟩, totalInventory := some 2,
    variants := [{ id := "gid://shopify/ProductVariant/3",
                   barcode := some "8903",
                   weight := some ⟨0, some "GRAMS"⟩ }] }

/-- A raw node with no variant at all (weight chain absent). -/
def noWeightNode : RawNode :=
  { id := "gid://shopify/Product/4", title := some "Bracelet",
    featuredImage := none, price := ⟨"70.0", "INR"⟩, totalInventory := some 1,
    variants := [] }

/-- A raw node whose variant has the nonzero weight `5 GRAMS`. -/
def heavyNode : RawNode :=
  { id := "gid://shopify/Product/5", title := some "Bangle",
    featuredImage := none, price := ⟨"90.0", "INR"⟩, totalInventory := some 3,
    variants := [{ id := "gid://shopify/ProductVariant/5",
                   barcode := some "8905",
                   weight := some ⟨5, some "GRAMS"⟩ }] }

/-- The weight display the normalizer computes, as a function of the raw
weight chain. -/
theorem normalize_weight_eq (node : RawNode) (c : String) :
    (normalize node c).weight =
      match rawWeightOf node with
      | some w =>
          if w.value ≠ 0 then
            toString w.value ++ " " ++ ((w.unit.map String.toLower).getD "")
          else "N/A"
      | none => "N/A" := rfl

/-- C3 counterexample: a weight value of `0` exists on the representative
variant, yet the normalizer outputs `"N/A"` rather than `"0 grams"`, because
the source tests JS truthiness (`weightData?.value`), not presence. -/
theorem normalize_weight_zero_counterexample :
    rawWeightOf zeroWeightNode = some ⟨0, some "GRAMS"⟩
    ∧ (normalize zeroWeightNode "c0").weight = "N/A"
    ∧ "N/A" ≠ "0 grams" :=
  ⟨rfl, rfl, by decide⟩

/-- C3 amended: the normalizer outputs `"<value> <unit lowercased>"` exactly
when a weight value exists and is nonzero; an absent chain or a zero value
yields `"N/A"`. The normalizer is a total function — it never throws on
missing optional fields. -/
theorem normalize_weight_rule (node : RawNode) (c : String) :
    (rawWeightOf node = none → (normalize node c).weight = "N/A")
    ∧ (∀ w, rawWeightOf node = some w → w.value = 0 →
        (normalize node c).weight = "N/A")
    ∧ (∀ w, rawWeightOf node = some w → w.value ≠ 0 →
        (normalize node c).weight =
          toString w.value ++ " " ++ ((w.unit.map String.toLower).getD "")) := by
  refine ⟨?_, ?_, ?_⟩
  · intro h
    rw [normalize_weight_eq, h]
  · intro w hw h0
    rw [normalize_weight_eq, hw]
    simp [h0]
  · intro w hw hne
    rw [normalize_weight_eq, hw]
    simp [hne]

/-- Witness for C3 at the three concrete nodes. -/
theorem normalize_weight_rule_witness :
    (normalize noWeightNode "c1").weight = "N/A"
    ∧ (normalize zeroWeightNode "c0").weight = "N/A"
    ∧ (normalize heavyNode "c2").weight =
        toString (5 : Int) ++ " " ++ ((Option.map String.toLower (some "GRAMS")).getD "") :=
  ⟨(normalize_weight_rule noWeightNode "c1").1 rfl,
   (normalize_weight_rule zeroWeightNode "c0").2.1 ⟨0, some "GRAMS"⟩ rfl rfl,
   (normalize_weight_rule heavyNode "c2").2.2 ⟨5, some "GRAMS"⟩ rfl (by decide)⟩

/-- C4 counterexample: with the present-but-empty cursor `""`, the forward
fetch request omits the `after` argument (JS truthiness treats `""` as
absent), contradicting "when the cursor is present it requests items strictly
after the cursor". -/
theorem products_query_counterexample :
    productsQuery "next" (some "") =
      renderFetchRequest (FetchRequest.firstPage productsPerPage)
    ∧ productsQuery "next" (some "") ≠
        renderFetchRequest (specFetchRequest "next" (some "")) :=
  ⟨rfl, by decide⟩

/-- C4 amended: an absent or empty cursor requests the first (forward) or
last (backward) `productsPerPage` items; a present nonempty cursor requests
items strictly after (forward) or strictly before (backward) it. -/
theorem products_query_rule (d : String) (c : String) :
    (productsQuery d none =
      renderFetchRequest
        (if d == "next" then FetchRequest.firstPage productsPerPage
         else FetchRequest.lastPage productsPerPage))
    ∧ (productsQuery d (some "") =
      renderFetchRequest
        (if d == "next" then FetchRequest.firstPage productsPerPage
         else FetchRequest.lastPage productsPerPage))
    ∧ (c ≠ "" →
      productsQuery d (some c) = renderFetchRequest (specFetchRequest d (some c))) := by
  refine ⟨?_, ?_, ?_⟩
  · by_cases hd : (d == "next") <;>
      simp [productsQuery, jsTruthy, renderFetchRequest, hd]
  · by_cases hd : (d == "next") <;>
      simp [productsQuery, jsTruthy, renderFetchRequest, hd]
  · intro hc
    by_cases hd : (d == "next") <;>
      simp [productsQuery, jsTruthy, renderFetchRequest, specFetchRequest, hd, hc]

/-- Witness for C4 at direction `"next"` and the concrete cursor `"abc"`. -/
theorem products_query_rule_witness :
    "abc" ≠ ""
    ∧ productsQuery "next" none = "products(first: 30)"
    ∧ productsQuery "next" (some "") = "products(first: 30)"
    ∧ productsQuery "next" (some "abc") = "products(first: 30, after: \"abc\")" :=
  ⟨by decide,
   (products_query_rule "next" "abc").1,
   (products_query_rule "next" "abc").2.1,
   (products_query_rule "next" "abc").2.2 (by decide)⟩

/-- C9 counterexample: the exporter's file name contains a literal `_Page_`
segment, so it does not follow the pattern
`<CollectionTitle>_<StockFilterLabel>_<Date>.csv`. -/
theorem export_file_name_counterexample :
    exportCurrentPage [sampleInStock] (some "Rings") 0 "2026-10-12" =
      ExportResult.file "Rings_InStock_Page_2026-10-12.csv"
        (csvContent [sampleInStock])
    ∧ "Rings_InStock_Page_2026-10-12.csv" ≠
        "Rings" ++ "_" ++ "InStock" ++ "_" ++ "2026-10-12" ++ ".csv" :=
  ⟨rfl, by decide⟩

/-- C9 amended: the download is named
`<CollectionTitle>_<StockFilterLabel>_Page_<Date>.csv`, where the label is
`"InStock"` for tab 0 and `"SoldOut"` otherwise and the date is the export
date string. -/
theorem export_file_name_rule (p : ProductRecord) (ps : List ProductRecord)
    (t : String) (tab : Nat) (d : String) (ht : t ≠ "") :
    exportCurrentPage (p :: ps) (some t) tab d =
      ExportResult.file
        (t ++ "_" ++ (if tab == 0 then "InStock" else "SoldOut") ++ "_Page_" ++
          d ++ ".csv")
        (csvContent (p :: ps)) := by
  simp [exportCurrentPage, exportFileName, jsOr, ht]

/-- Witness for C9 on the sold-out tab with a concrete title and date. -/
theorem export_file_name_rule_witness :
    "Rings" ≠ ""
    ∧ exportCurrentPage [sampleSoldOut] (some "Rings") 1 "2026-10-12" =
        ExportResult.file "Rings_SoldOut_Page_2026-10-12.csv"
          (csvContent [sampleSoldOut]) :=
  ⟨by decide,
   export_file_name_rule sampleSoldOut [] "Rings" 1 "2026-10-12" (by decide)⟩

/-- C10 counterexample: the empty string is a stock value different from
`"in-stock"`, yet (being JS-falsy) it falls back to the default and selects
the in-stock view: a record with 5 available units is selected. -/
theorem stock_param_counterexample :
    "" ≠ "in-stock"
    ∧ loaderStockSelect (some "") [sampleInStock] = [sampleInStock]
    ∧ sampleInStock.availableUnits = 5
    ∧ [sampleInStock].filter (fun p => p.availableUnits == 0) = [] :=
  ⟨by decide, rfl, rfl, rfl⟩

/-- C10 amended: every nonempty stock value other than `"in-stock"` selects
exactly the records with `availableUnits = 0`; an absent or empty stock
parameter defaults to the in-stock view (`availableUnits > 0`). No stock
value is rejected: the selection is total. -/
theorem stock_param_rule (v : String) (R : List ProductRecord) :
    (v ≠ "" → v ≠ "in-stock" →
      loaderStockSelect (some v) R = R.filter (fun p => p.availableUnits == 0))
    ∧ loaderStockSelect none R = R.filter (fun p => decide (p.availableUnits > 0))
    ∧ loaderStockSelect (some "") R =
        R.filter (fun p => decide (p.availableUnits > 0)) := by
  refine ⟨?_, ?_, ?_⟩
  · intro hne hni
    simp only [loaderStockSelect, jsOr, if_neg hne]
    congr 1
    funext p
    simp [stockPredicate, hni]
  · rfl
  · rfl

/-- Witness for C10 with the value `"sold-out"` and a concrete record set. -/
theorem stock_param_rule_witness :
    loaderStockSelect (some "sold-out") [sampleInStock, sampleSoldOut] =
      [sampleInStock, sampleSoldOut].filter (fun p => p.availableUnits == 0)
    ∧ loaderStockSelect none [sampleInStock, sampleSoldOut] =
        [sampleInStock, sampleSoldOut].filter (fun p => decide (p.availableUnits > 0))
    ∧ loaderStockSelect (some "") [sampleInStock, sampleSoldOut] =
        [sampleInStock, sampleSoldOut].filter (fun p => decide (p.availableUnits > 0)) :=
  ⟨(stock_param_rule "sold-out" [sampleInStock, sampleSoldOut]).1
      (by decide) (by decide),
   (stock_param_rule "sold-out" [sampleInStock, sampleSoldOut]).2.1,
   (stock_param_rule "sold-out" [sampleInStock, sampleSoldOut]).2.2⟩

/-- Modelled from the spec: standard CSV quoting of one field — wrap in
double quotes with each internal double quote doubled. -/
def specCsvQuote (s : String) : String :=
  "\"" ++ jsEscapeQuotes s ++ "\""

/-- Collapse each doubled double quote (standard CSV unescaping of a quoted
field body). -/
def unescapeDQ : List Char → List Char
  | [] => []
  | [c] => [c]
  | c :: d :: rest =>
      if c = '"' ∧ d = '"' then '"' :: unescapeDQ rest
      else c :: unescapeDQ (d :: rest)

/-- Modelled from the spec: a standard CSV parser's reading of one quoted
field — strip the outer quotes and collapse doubled quotes; a field not
starting with a quote is read as-is. -/
def csvFieldParse (s : String) : String :=
  match s.data with
  | '"' :: rest => ⟨unescapeDQ rest.dropLast⟩
  | _ => s

theorem unescapeDQ_cons_ne (c : Char) (l : List Char) (h : c ≠ '"') :
    unescapeDQ (c :: l) = c :: unescapeDQ l := by
  cases l with
  | nil => rfl
  | cons d t => simp [unescapeDQ, h]

theorem unescapeDQ_escapeDQ (l : List Char) : unescapeDQ (escapeDQ l) = l := by
  induction l with
  | nil => rfl
  | cons c t ih =>
      by_cases h : c = '"'
      · subst h
        rw [show escapeDQ ('"' :: t) = '"' :: '"' :: escapeDQ t from by
          simp [escapeDQ]]
        simp [unescapeDQ, ih]
      · rw [show escapeDQ (c :: t) = c :: escapeDQ t from by simp [escapeDQ, h],
          unescapeDQ_cons_ne c _ h, ih]

theorem escapeDQ_no_quote (l : List Char) (h : '"' ∉ l) : escapeDQ l = l := by
  induction l with
  | nil => rfl
  | cons c t ih =>
      simp only [List.mem_cons, not_or] at h
      obtain ⟨h1, h2⟩ := h
      rw [show escapeDQ (c :: t) =
          if c = '"' then '"' :: '"' :: escapeDQ t else c :: escapeDQ t from rfl,
        if_neg (fun hc => h1 hc.symm), ih h2]

/-- Standard CSV unquoting undoes standard CSV quoting on any field value. -/
theorem csvFieldParse_specCsvQuote (s : String) :
    csvFieldParse (specCsvQuote s) = s := by
  have h1 : csvFieldParse (specCsvQuote s) =
      ⟨unescapeDQ ((escapeDQ s.data ++ ['"']).dropLast)⟩ := rfl
  rw [h1, List.dropLast_concat, unescapeDQ_escapeDQ]

/-- A record whose barcode contains an embedded double quote. -/
def quoteBarcodeRecord : ProductRecord :=
  { id := "gid://shopify/Product/6", title := "Necklace", image := none,
    imageAlt := none, weight := "3 g", price := ⟨"200.0", "USD"⟩,
    barcode := "X\"1", availableUnits := 3, cursor := "curC" }

/-- C1 counterexample: the exporter wraps the barcode field in quotes without
doubling its internal double quote, so the emitted field differs from the
standard CSV quoting the claim asserts for every string field. -/
theorem csv_quoting_counterexample :
    csvRowFields quoteBarcodeRecord =
      ["\"Necklace\"", "\"3 g\"", "200.0", "USD", "\"X\"1\"", "3"]
    ∧ ("\"" ++ quoteBarcodeRecord.barcode ++ "\"") ≠
        specCsvQuote quoteBarcodeRecord.barcode :=
  ⟨rfl, by decide⟩

/-- C1 amended: only the title field gets internal double quotes doubled;
weight and barcode are wrapped in double quotes as-is, and the numeric
fields (price amount, available units) are unquoted. The title field
round-trips through standard CSV unquoting for every title; the weight and
barcode fields round-trip exactly when they contain no double quote. -/
theorem csv_row_quoting_rule (p : ProductRecord) :
    csvRowFields p =
      [specCsvQuote p.title, "\"" ++ p.weight ++ "\"", p.price.amount,
       p.price.currencyCode, "\"" ++ p.barcode ++ "\"",
       toString p.availableUnits]
    ∧ csvFieldParse (specCsvQuote p.title) = p.title
    ∧ ('"' ∉ p.weight.data →
        "\"" ++ p.weight ++ "\"" = specCsvQuote p.weight ∧
          csvFieldParse ("\"" ++ p.weight ++ "\"") = p.weight)
    ∧ ('"' ∉ p.barcode.data →
        "\"" ++ p.barcode ++ "\"" = specCsvQuote p.barcode ∧
          csvFieldParse ("\"" ++ p.barcode ++ "\"") = p.barcode) := by
  have wrap : ∀ s : String, '"' ∉ s.data →
      ("\"" ++ s ++ "\"" = specCsvQuote s ∧
        csvFieldParse ("\"" ++ s ++ "\"") = s) := by
    intro s hs
    have he : jsEscapeQuotes s = s := by
      show (⟨escapeDQ s.data⟩ : String) = s
      rw [escapeDQ_no_quote _ hs]
    constructor
    · simp only [specCsvQuote, he]
    · have h := csvFieldParse_specCsvQuote s
      simp only [specCsvQuote, he] at h
      exact h
  exact ⟨rfl, csvFieldParse_specCsvQuote p.title, wrap p.weight, wrap p.barcode⟩

/-- A record whose title carries embedded double quotes (and a quote-free
weight and barcode). -/
def acmeRecord : ProductRecord :=
  { id := "gid://shopify/Product/7", title := "Acme \"Pro\" Widget",
    image := none, imageAlt := none, weight := "2 kg",
    price := ⟨"10.5", "USD"⟩, barcode := "B77", availableUnits := 4,
    cursor := "curD" }

/-- Witness for C1 on a record with a quoted title. -/
theorem csv_row_quoting_rule_witness :
    csvRowFields acmeRecord =
      [specCsvQuote acmeRecord.title, "\"" ++ acmeRecord.weight ++ "\"",
       acmeRecord.price.amount, acmeRecord.price.currencyCode,
       "\"" ++ acmeRecord.barcode ++ "\"", toString acmeRecord.availableUnits]
    ∧ csvFieldParse (specCsvQuote acmeRecord.title) = acmeRecord.title
    ∧ ("\"" ++ acmeRecord.weight ++ "\"" = specCsvQuote acmeRecord.weight ∧
        csvFieldParse ("\"" ++ acmeRecord.weight ++ "\"") = acmeRecord.weight)
    ∧ ("\"" ++ acmeRecord.barcode ++ "\"" = specCsvQuote acmeRecord.barcode ∧
        csvFieldParse ("\"" ++ acmeRecord.barcode ++ "\"") = acmeRecord.barcode) :=
  ⟨(csv_row_quoting_rule acmeRecord).1,
   (csv_row_quoting_rule acmeRecord).2.1,
   (csv_row_quoting_rule acmeRecord).2.2.1 (by decide),
   (csv_row_quoting_rule acmeRecord).2.2.2 (by decide)⟩

/-- C8: when the upstream response reports the collection absent, the loader
terminates with the 404 `"Collection not found"` response; the loader's
outcome depends only on its single fetch (no retry); and the product-detail
loader likewise turns an absent product (with no upstream error payload) into
the terminal 404 `"Product not found"` response. -/
theorem not_found_terminal (f : Nat → UpstreamResponse) (sp : Option String)
    (h : (f 0).collection = none) :
    loaderRun f sp = Except.error ⟨404, "Collection not found"⟩
    ∧ (∀ g, g 0 = f 0 → loaderRun g sp = loaderRun f sp)
    ∧ (∀ pf : Nat → ProductResponse, (pf 0).errors = false →
        (pf 0).product = none →
        productLoaderRun pf = Except.error ⟨404, "Product not found"⟩) := by
  refine ⟨?_, ?_, ?_⟩
  · simp [loaderRun, loaderProcess, h]
  · intro g hg
    simp [loaderRun, hg]
  · intro pf he hp
    simp [productLoaderRun, productLoaderProcess, he, hp]

/-- Witness for C8 with constant fetch sequences reporting absence. -/
theorem not_found_terminal_witness :
    loaderRun (fun _ => ⟨none⟩) (some "in-stock") =
      Except.error ⟨404, "Collection not found"⟩
    ∧ productLoaderRun (fun _ => ⟨false, none⟩) =
        Except.error ⟨404, "Product not found"⟩ :=
  ⟨(not_found_terminal (fun _ => ⟨none⟩) (some "in-stock") rfl).1,
   (not_found_terminal (fun _ => ⟨none⟩) (some "in-stock") rfl).2.2
     (fun _ => ⟨false, none⟩) rfl rfl⟩

end Dashboard
